import Mathlib

/-!
Verification of the mirascope + Langfuse integration layer.

The repository ships the tests (`tests/langfuse/test_langfuse.py`) and an
example (`examples/prompt_cli/prompts/math_problem.py`); the library modules
they exercise (`mirascope.langfuse.langfuse`, `mirascope.chroma.vectorstores`,
the `tags` decorator, the Call/Extractor/Embedder/VectorStore base classes)
are not part of the sources given here.  Those missing parts are therefore
modelled from the specification's description of the system -- "user subclass
-> uniform base call interface -> vendor SDK call -> optional tracing
decorator -> vendor response object", "thin parameter bags (model name, API
key, prompt template)", "a decorator that instruments a method at run time by
inspecting whether the wrapped callable returns a plain value, an iterable, or
an asynchronous iterable, and attaches start/end spans accordingly" -- and
from the concrete behavior the shipped tests pin down.
-/

namespace Mirascope

/-- Modelled from the spec: a handle to the Langfuse observability client,
the object `mirascope.langfuse.langfuse.Langfuse()` constructs.  Its internals
belong to the vendor SDK; only its identity matters here. -/
structure Langfuse where
  id : Nat
deriving DecidableEq, Repr

/-- Modelled from the spec: the thin call-parameter bag ("model name, API key,
prompt template"); the langfuse field is the slot `with_langfuse` fills, as the
tests observe via `my_call.call_params.langfuse`. -/
structure CallParams where
  model : String
  preamble : Option String
  langfuse : Option Langfuse
deriving DecidableEq, Repr

/-- Modelled from the spec: the thin embedding-parameter bag, observed by the
tests via `my_embedder.embedding_params.langfuse`. -/
structure EmbeddingParams where
  model : String
  langfuse : Option Langfuse
deriving DecidableEq, Repr

/-- Modelled from the spec: the thin vector-store-parameter bag, observed by
the tests via `my_vectorstore.vectorstore_params.langfuse`. -/
structure VectorStoreParams where
  langfuse : Option Langfuse
deriving DecidableEq, Repr

/-- The four kinds of user-facing classes of the uniform object model named by
the spec: Call, Extractor, Embedder, and the vector store. -/
inductive ClassKind
  | call
  | extractor
  | embedder
  | vectorstore
deriving DecidableEq, Repr

/-- Modelled from the spec: a user subclass of the uniform object model.  It
carries the class-level attributes the example subclasses in the tests set
(`prompt_template`, `api_key`) and the three parameter bags. -/
structure MClass where
  kind : ClassKind
  prompt_template : String
  api_key : String
  call_params : CallParams
  embedding_params : EmbeddingParams
  vectorstore_params : VectorStoreParams
deriving DecidableEq, Repr

/-- Modelled from the spec: `with_langfuse`, the class decorator that makes
"trace spans get logged to Langfuse".  It constructs a Langfuse client and
stores it in the parameter bag matching the decorated class's kind, which is
what the tests assert afterwards (`call_params.langfuse is not None` for Calls
and Extractors, `embedding_params.langfuse` for Embedders,
`vectorstore_params.langfuse` for VectorStores). -/
def with_langfuse (client : Langfuse) (cls : MClass) : MClass :=
  match cls.kind with
  | .call =>
      { cls with call_params := { cls.call_params with langfuse := some client } }
  | .extractor =>
      { cls with call_params := { cls.call_params with langfuse := some client } }
  | .embedder =>
      { cls with embedding_params := { cls.embedding_params with langfuse := some client } }
  | .vectorstore =>
      { cls with vectorstore_params := { cls.vectorstore_params with langfuse := some client } }

/-- Modelled from the spec: instantiating a user subclass.  Instances inherit
the class-level attributes, parameter bags included; construction performs no
vendor call. -/
def instantiate (cls : MClass) : MClass :=
  cls

/-- Modelled from the spec: the undecorated uniform `call()`/`call_async()`.
It forwards to the vendor SDK and returns the vendor response object
unchanged ("forwarding calls to a vendor SDK"); the vendor response is left
abstract as a type parameter. -/
def vendor_call {α : Type} (sdk_response : α) : α :=
  sdk_response

/-- Modelled from the spec: the `call()`/`call_async()` of a decorated class.
The tracing decorator, when a Langfuse client is installed, creates exactly
one Langfuse trace for the invocation and returns the same vendor response the
undecorated call would; without a client it is the plain call.  The trace
count threads through as explicit state. -/
def traced_call {α : Type} (client : Option Langfuse) (traces : Nat)
    (sdk_response : α) : α × Nat :=
  (vendor_call sdk_response, if client.isSome then traces + 1 else traces)

/-- The three shapes the spec's instrumentation decorator distinguishes: a
plain value, a (synchronous) iterable, and an asynchronous iterable. -/
inductive ResultShape
  | plainValue
  | syncIterable
  | asyncIterable
deriving DecidableEq, Repr

/-- Modelled from the spec: the run-time result of a wrapped callable, in the
three shapes the decorator inspects. -/
inductive CallResult (α : Type)
  | plain (value : α)
  | iterable (chunks : List α)
  | asyncIter (chunks : List α)
deriving DecidableEq, Repr

/-- The shape of a wrapped callable's result. -/
def resultShape {α : Type} : CallResult α → ResultShape
  | .plain _ => .plainValue
  | .iterable _ => .syncIterable
  | .asyncIter _ => .asyncIterable

/-- A start or end span event logged to Langfuse, tagged with the shape of the
result it surrounds. -/
inductive SpanEvent
  | spanStart (shape : ResultShape)
  | spanEnd (shape : ResultShape)
deriving DecidableEq, Repr

/-- Modelled from the spec: the instrumentation decorator "instruments a
method at run time by inspecting whether the wrapped callable returns a plain
value, an iterable, or an asynchronous iterable, and attaches start/end spans
accordingly".  It branches on the run-time shape, re-emits the result in the
same shape, and logs a start span before and an end span after. -/
def instrument_result {α : Type} : CallResult α → CallResult α × List SpanEvent
  | .plain v =>
      (.plain v, [.spanStart .plainValue, .spanEnd .plainValue])
  | .iterable cs =>
      (.iterable cs, [.spanStart .syncIterable, .spanEnd .syncIterable])
  | .asyncIter cs =>
      (.asyncIter cs, [.spanStart .asyncIterable, .spanEnd .asyncIterable])

/-- Modelled from the spec: a chunk of a decorated stream.  The library wraps
each vendor chunk in its own response-chunk object whose `.chunk` attribute is
the vendor chunk, as the tests observe (`chunk.chunk == fixture[i]`). -/
structure WrappedChunk (α : Type) where
  chunk : α
deriving DecidableEq, Repr

/-- Modelled from the spec: `stream()`, "wrapping the vendor's streaming
iterator".  Each vendor chunk is yielded once, in order, wrapped. -/
def stream {α : Type} (vendor_chunks : List α) : List (WrappedChunk α) :=
  vendor_chunks.map WrappedChunk.mk

/-- Modelled from the spec: `stream_async()`, the asynchronous counterpart of
`stream()`; the wrapped asynchronous iterator yields the same wrapped chunks
in the same order. -/
def stream_async {α : Type} (vendor_chunks : List α) : List (WrappedChunk α) :=
  vendor_chunks.map WrappedChunk.mk

/-- A document handed to the vector store, as in
`mirascope.rag.types.Document(text=..., id=...)`. -/
structure Document where
  text : String
  id : String
deriving DecidableEq, Repr

/-- A call made on the underlying Chroma collection, recording the method and
the arguments it received. -/
inductive ChromaCall
  | upsert (ids : List String) (documents : List String)
  | query (query_texts : List String)
deriving DecidableEq, Repr

/-- Modelled from the spec: `ChromaVectorStore.add(documents)` is glue that
forwards to the Chroma collection's `upsert`, once, with `ids` the documents'
ids and `documents` their texts; the returned list records every collection
call the operation makes. -/
def chroma_add (documents : List Document) : List ChromaCall :=
  [ChromaCall.upsert (documents.map Document.id) (documents.map Document.text)]

/-- Modelled from the spec: `ChromaVectorStore.retrieve(text)` is glue that
forwards to the Chroma collection's `query`, once, with `query_texts` the
one-element list holding the caller's text. -/
def chroma_retrieve (text : String) : List ChromaCall :=
  [ChromaCall.query [text]]

/-- Modelled from the spec: the tool-call payload of the underlying call's
vendor response, a bag of named arguments. -/
structure ToolCall where
  args : List (String × String)
deriving DecidableEq, Repr

/-- Modelled from the spec: an instance of an extractor's `extract_schema`,
built from a tool call's arguments. -/
structure SchemaInstance where
  fields : List (String × String)
deriving DecidableEq, Repr

/-- Modelled from the spec: the undecorated `Extractor.extract()`.  It
forwards to the underlying call and builds an instance of the extractor's
`extract_schema` from the tool response's arguments. -/
def extract (tool_response : ToolCall) : SchemaInstance :=
  ⟨tool_response.args⟩

/-- Modelled from the spec: `extract()` on a `with_langfuse`-decorated
extractor.  The tracing decorator logs a trace when a client is installed and
returns the same schema instance the undecorated extractor builds. -/
def traced_extract (client : Option Langfuse) (traces : Nat)
    (tool_response : ToolCall) : SchemaInstance × Nat :=
  (extract tool_response, if client.isSome then traces + 1 else traces)

/-- A callable wrapped by the generation decorator; only its name matters to
the model. -/
structure PyCallable where
  name : String
deriving DecidableEq, Repr

/-- The error the generation decorator raises. -/
inductive LangfuseError
  | valueError (msg : String)
deriving DecidableEq, Repr

/-- Modelled from the spec: `mirascope_langfuse_generation`.  Per the shipped
test (`test_value_error_on_mirascope_langfuse_generation`: "One of
response_type or response_chunk_type is required."), the decorator it
produces, applied to a callable and a suffix, raises `ValueError` when both
`response_type` and `response_chunk_type` are absent, and otherwise returns
the instrumented callable. -/
def mirascope_langfuse_generation (response_type : Option String)
    (response_chunk_type : Option String) (fn : PyCallable) (suffix : String) :
    Except LangfuseError PyCallable :=
  if response_type.isNone ∧ response_chunk_type.isNone then
    Except.error (LangfuseError.valueError
      "one of response_type or response_chunk_type is required")
  else
    Except.ok ⟨fn.name ++ "_" ++ suffix⟩

/-- The class-body declaration of an extractor subclass: its tags, its prompt
template, its `extract_schema` (field names with their descriptions), and its
declared instance fields. -/
structure ExtractorClassDecl where
  tags : List String
  prompt_template : String
  extract_schema : List (String × String)
  fields : List String
deriving DecidableEq, Repr

/-- Modelled from the spec: the `tags` class decorator.  It attaches the given
list of tag strings to the decorated class and returns the class otherwise
unchanged. -/
def tags (ts : List String) (cls : ExtractorClassDecl) : ExtractorClassDecl :=
  { cls with tags := ts }

/-- The `ProblemDetails` schema of `examples/prompt_cli/prompts/math_problem.py`:
field names with their `Field(description=...)` texts. -/
def problemDetailsSchema : List (String × String) :=
  [("solving_steps", "The steps to solve the math problem."),
   ("answer", "the answer to the math problem.")]

/-- The class body of `ProblemSolver` as declared in
`examples/prompt_cli/prompts/math_problem.py`, before the `@tags` decorator
is applied: no tags, the triple-quoted prompt template, `extract_schema =
ProblemDetails`, and the single declared field `problem`. -/
def problemSolverBody : ExtractorClassDecl :=
  { tags := [],
    prompt_template :=
      "\n    Here is a math problem: {problem}\n    Write out the answer step by step to arrive at the answer.\n    ",
    extract_schema := problemDetailsSchema,
    fields := ["problem"] }

/-- `ProblemSolver` as it exists after decoration:
`@tags(["version:0003"])` applied to the class body. -/
def ProblemSolver : ExtractorClassDecl :=
  tags ["version:0003"] problemSolverBody

/-- The concrete decorated-call class of `test_call_with_langfuse`:
`MyNestedCall`, a Call subclass with `prompt_template = "test"` and an empty
parameter bag before decoration. -/
def myNestedCallBase : MClass :=
  { kind := ClassKind.call,
    prompt_template := "test",
    api_key := "",
    call_params := { model := "gpt-3.5-turbo", preamble := none, langfuse := none },
    embedding_params := { model := "", langfuse := none },
    vectorstore_params := { langfuse := none } }

end Mirascope

namespace Mirascope

/-- C1: for every Call subclass decorated with `with_langfuse`, after
decoration the instance's `call_params.langfuse` is a non-None Langfuse
client, and invoking `call()` creates exactly one Langfuse trace (the trace
count rises by exactly one). -/
theorem decorated_call_sets_client_and_traces_once
    {α : Type} (client : Langfuse) (pt ak : String) (cp : CallParams)
    (ep : EmbeddingParams) (vp : VectorStoreParams)
    (traces : Nat) (sdk_response : α) :
    ((instantiate (with_langfuse client
        ⟨ClassKind.call, pt, ak, cp, ep, vp⟩)).call_params.langfuse
      = some client)
    ∧ (traced_call
        (instantiate (with_langfuse client
          ⟨ClassKind.call, pt, ak, cp, ep, vp⟩)).call_params.langfuse
        traces sdk_response).2 = traces + 1 := by
  constructor
  · rfl
  · simp [traced_call, with_langfuse, instantiate]

/-- C2: the instrumentation decorator distinguishes at run time whether the
wrapped callable returned a plain value, a synchronous iterable, or an
asynchronous iterable; in each case it returns the result unchanged, in the
same shape, and attaches a start span and an end span for that shape around
it. -/
theorem instrument_preserves_shape_and_attaches_spans
    {α : Type} (r : CallResult α) :
    (instrument_result r).1 = r
    ∧ resultShape (instrument_result r).1 = resultShape r
    ∧ (instrument_result r).2
      = [SpanEvent.spanStart (resultShape r), SpanEvent.spanEnd (resultShape r)] := by
  cases r <;> simp [instrument_result, resultShape]

/-- C3: wrapping the vendor's streaming iterator preserves the stream: for
every finite sequence of vendor chunks, `stream()` and `stream_async()` yield
exactly one wrapped chunk per vendor chunk, in the same order, each wrapped
chunk's `.chunk` field equal to the corresponding vendor chunk. -/
theorem stream_wraps_chunks_one_to_one
    {α : Type} (vendor_chunks : List α) :
    (stream vendor_chunks).map WrappedChunk.chunk = vendor_chunks
    ∧ (stream_async vendor_chunks).map WrappedChunk.chunk = vendor_chunks
    ∧ (stream vendor_chunks).length = vendor_chunks.length
    ∧ (stream_async vendor_chunks).length = vendor_chunks.length := by
  refine ⟨?_, ?_, ?_, ?_⟩ <;>
    simp [stream, stream_async, List.map_map, Function.comp_def]

/-- C4: the tracing decorator is transparent with respect to results: for the
same vendor SDK response, the decorated `call()`/`call_async()` returns
exactly the vendor response object the undecorated call returns, whatever
client is installed and whatever the trace state. -/
theorem traced_call_returns_undecorated_response
    {α : Type} (client : Option Langfuse) (traces : Nat) (sdk_response : α) :
    (traced_call client traces sdk_response).1 = vendor_call sdk_response := by
  rfl

/-- C5: the Chroma vector store forwards to the vendor SDK exactly once with
the caller's data unchanged: `add(documents)` makes exactly one collection
call, an `upsert` whose ids are the documents' ids and whose documents are
their texts, and `retrieve(text)` makes exactly one collection call, a `query`
with `query_texts = [text]`. -/
theorem chroma_forwards_exactly_once
    (documents : List Document) (text : String) :
    chroma_add documents
      = [ChromaCall.upsert (documents.map Document.id)
          (documents.map Document.text)]
    ∧ (chroma_add documents).length = 1
    ∧ chroma_retrieve text = [ChromaCall.query [text]]
    ∧ (chroma_retrieve text).length = 1 := by
  exact ⟨rfl, rfl, rfl, rfl⟩

/-- C6: a `with_langfuse`-decorated Extractor supports `extract()` exactly as
an undecorated one: it returns the same `extract_schema` instance built from
the underlying call's tool response, and after decoration the instance's
`call_params.langfuse` is non-None. -/
theorem decorated_extractor_extracts_like_undecorated
    (client : Langfuse) (pt ak : String) (cp : CallParams)
    (ep : EmbeddingParams) (vp : VectorStoreParams)
    (traces : Nat) (tool_response : ToolCall) :
    ((instantiate (with_langfuse client
        ⟨ClassKind.extractor, pt, ak, cp, ep, vp⟩)).call_params.langfuse
      = some client)
    ∧ (traced_extract
        (instantiate (with_langfuse client
          ⟨ClassKind.extractor, pt, ak, cp, ep, vp⟩)).call_params.langfuse
        traces tool_response).1 = extract tool_response := by
  exact ⟨rfl, rfl⟩

/-- C7 counterexample: the claim that "no operation of the library adds or
depends on library-owned state stored in the parameter bags" is false:
`with_langfuse` stores the Langfuse client in the call-parameter bag, changing
it, and the decorated call's tracing effect depends on that stored field. -/
theorem param_bag_gains_library_state
    : (with_langfuse ⟨0⟩ myNestedCallBase).call_params ≠ myNestedCallBase.call_params
    ∧ (traced_call (some ⟨0⟩) 0 (0 : Nat)).2 ≠ (traced_call none 0 (0 : Nat)).2 := by
  exact ⟨by decide, by decide⟩

/-- C7 amended: the parameter bags are thin vendor-facing bags with no
validation invariants, and the only library-managed state in them is the
`langfuse` slot: `with_langfuse` leaves every vendor-facing field (model,
preamble, prompt template, API key) of every bag, and the class kind,
unchanged. -/
theorem with_langfuse_frames_vendor_fields
    (client : Langfuse) (cls : MClass) :
    (with_langfuse client cls).kind = cls.kind
    ∧ (with_langfuse client cls).prompt_template = cls.prompt_template
    ∧ (with_langfuse client cls).api_key = cls.api_key
    ∧ (with_langfuse client cls).call_params.model = cls.call_params.model
    ∧ (with_langfuse client cls).call_params.preamble = cls.call_params.preamble
    ∧ (with_langfuse client cls).embedding_params.model = cls.embedding_params.model := by
  cases h : cls.kind <;>
    simp [with_langfuse, h]

/-- C8: the decorator produced by `mirascope_langfuse_generation` with both
`response_type` and `response_chunk_type` absent fails with `ValueError` on
every callable, and it succeeds exactly when at least one of the two is
supplied. -/
theorem generation_requires_response_type
    (fn : PyCallable) (suffix : String)
    (response_type response_chunk_type : Option String) :
    (∃ msg, mirascope_langfuse_generation none none fn suffix
      = Except.error (LangfuseError.valueError msg))
    ∧ ((mirascope_langfuse_generation response_type response_chunk_type
          fn suffix).isOk = true
        ↔ (response_type.isSome = true ∨ response_chunk_type.isSome = true)) := by
  constructor
  · exact ⟨"one of response_type or response_chunk_type is required", rfl⟩
  · cases response_type <;> cases response_chunk_type <;>
      simp [mirascope_langfuse_generation, Except.isOk, Except.toBool]

/-- C9: `with_langfuse` installs the Langfuse client into the parameter bag
matching the decorated class's kind, by the time the instance is constructed:
immediately after instantiation, a decorated Call or Extractor has
`call_params.langfuse` set, a decorated Embedder has
`embedding_params.langfuse` set, and a decorated VectorStore has
`vectorstore_params.langfuse` set, with no operation yet invoked. -/
theorem with_langfuse_installs_client_by_kind
    (client : Langfuse) (pt ak : String) (cp : CallParams)
    (ep : EmbeddingParams) (vp : VectorStoreParams) :
    ((instantiate (with_langfuse client
        ⟨ClassKind.call, pt, ak, cp, ep, vp⟩)).call_params.langfuse = some client)
    ∧ ((instantiate (with_langfuse client
        ⟨ClassKind.extractor, pt, ak, cp, ep, vp⟩)).call_params.langfuse = some client)
    ∧ ((instantiate (with_langfuse client
        ⟨ClassKind.embedder, pt, ak, cp, ep, vp⟩)).embedding_params.langfuse = some client)
    ∧ ((instantiate (with_langfuse client
        ⟨ClassKind.vectorstore, pt, ak, cp, ep, vp⟩)).vectorstore_params.langfuse
      = some client) := by
  exact ⟨rfl, rfl, rfl, rfl⟩

/-- C10: the `tags` class decorator attaches exactly the given list of tag
strings to the decorated class and changes nothing else: `ProblemSolver`
after `@tags(["version:0003"])` has exactly that tag list, while its
`prompt_template`, `extract_schema`, and declared `problem` field are exactly
as written in the class body; in general `tags ts` sets the tag list to `ts`
and preserves every other component of the declaration. -/
theorem tags_sets_tags_and_frames_rest
    (ts : List String) (cls : ExtractorClassDecl) :
    ProblemSolver.tags = ["version:0003"]
    ∧ ProblemSolver.prompt_template = problemSolverBody.prompt_template
    ∧ ProblemSolver.extract_schema = problemDetailsSchema
    ∧ ProblemSolver.fields = ["problem"]
    ∧ (tags ts cls).tags = ts
    ∧ (tags ts cls).prompt_template = cls.prompt_template
    ∧ (tags ts cls).extract_schema = cls.extract_schema
    ∧ (tags ts cls).fields = cls.fields := by
  exact ⟨rfl, rfl, rfl, rfl, rfl, rfl, rfl, rfl⟩

end Mirascope
